import Mathlib

/-!
Verification of the child-component lifecycle of the zoid repository.

The development shallowly embeds `src/child/index.js` (the `ChildComponent`
class, provided as `src/unnamed/part_000`).  Browser state that the class
reads through collaborator functions (`window.__activeXComponent__`,
`getParentWindow`, `getParentComponentWindow`, `parseWindowName(window.name)`)
is modelled as an explicit `Env` record; the side effects of each method
(log calls, message listeners, post messages, lifecycle callback
invocations, watcher registrations, `window.close()`) are modelled as an
event trace.  Methods become pure functions from the instance and the
environment to a result, an updated environment and the trace.
-/

namespace Zoid

/-- Property values carried in a props bag.  The JavaScript values are
arbitrary; the claims only compare them for equality, so an opaque
countable carrier suffices. -/
abbrev Val := Int

/-- An opaque window handle. -/
abbrev Win := Nat

/-- `CONTEXT_TYPES` from `src/constants` (file not in src): the two surface
context types named throughout the source and the spec. -/
inductive ContextType where
  | iframe
  | popup
deriving DecidableEq, Repr

/-- The browser-global state read by `ChildComponent`:
`window.__activeXComponent__` (as a Boolean occupancy mark),
the results of `getParentWindow()` and `getParentComponentWindow()`
(collaborators from `src/lib` / `src/component/window`, not in src,
modelled as stable environment lookups), and the tag decoded from
`window.name` by `parseWindowName` (codec from `src/component/window`,
not in src; modelled per the spec codec for a well-formed name). -/
structure Env where
  active : Bool
  parentWindow : Option Win
  parentComponentWindow : Option Win
  windowNameTag : String
deriving DecidableEq, Repr

/-- The instance fields of `ChildComponent` that the verified methods read
or write: the component tag, the `standalone` option, the props bag
(an insertion-ordered association list, as a JavaScript object), and the
context type delivered by the INIT reply (`this.context`, initially
undefined). -/
structure ChildComponent where
  tag : String
  standalone : Bool
  props : List (String × Val)
  context : Option ContextType
deriving DecidableEq, Repr

/-- Modelled from the spec: `normalizeProps` (`src/component/props`, not in
src) seeds the props bag from the child-supplied defaults at construction;
the constructor also stores the tag and the `standalone` option and leaves
`this.context` unset. -/
def mkChild (tag : String) (standalone : Bool)
    (defaultProps : List (String × Val)) : ChildComponent :=
  { tag := tag, standalone := standalone, props := defaultProps, context := none }

/-- `POST_MESSAGE` names from `src/constants` (file not in src), modelled
from the spec protocol vocabulary. -/
inductive MsgName where
  | init
  | props
  | close
  | resize
  | error
deriving DecidableEq, Repr

/-- Message payloads of the protocol vocabulary. -/
inductive MsgData where
  | empty
  | errorData (payload : String)
  | propsData (props : List (String × Val))
  | resizeData (width height : Option Int)
deriving DecidableEq, Repr

/-- The two windows watched by `watchForClose`. -/
inductive WatchTarget where
  | parentWin
  | parentCompWin
deriving DecidableEq, Repr

/-- One observable side effect of a `ChildComponent` method. -/
inductive Ev where
  | log (msg : String)
  | listen (win : Option Win)
  | send (target : Option Win) (name : MsgName) (data : MsgData)
  | consoleError (stack : Option String)
  | onCloseInvoked (errMsg : Option String)
  | onPropsInvoked (propsSeen : List (String × Val))
  | onEnterInvoked
  | windowClose
  | watchRegistered (target : WatchTarget)
deriving DecidableEq, Repr

/-- The errors thrown by `setWindows`; the spec taxonomy files
(`src/error`) are not in src, so the thrown `Error` objects are modelled
by their construction site and message parts. -/
inductive CErr where
  | duplicateAttach (tag : String)
  | noParentWindow (tag : String)
  | noParentComponentWindow (tag : String)
  | tagMismatch (configured decoded : String)
deriving DecidableEq, Repr

/-- The exact message string of each `setWindows` error. -/
def CErr.message : CErr → String
  | .duplicateAttach t =>
      "[" ++ (t ++ "] Can not attach multiple components to the same window")
  | .noParentWindow t =>
      "[" ++ (t ++ "] Can not find parent window")
  | .noParentComponentWindow t =>
      "[" ++ (t ++ "] Can not find parent component window")
  | .tagMismatch t w =>
      "[" ++ (t ++ ("] Parent is " ++ (w ++ (" - can not attach " ++ t))))

/-- Modelled from the spec error taxonomy (`src/error` not in src):
duplicate attach, missing parent references and tag mismatch are all of
the ConfigurationError kind. -/
def CErr.isConfigurationError : CErr → Bool
  | .duplicateAttach _ => true
  | .noParentWindow _ => true
  | .noParentComponentWindow _ => true
  | .tagMismatch _ _ => true

/-- `msg` mentions `sub`: `sub` occurs verbatim inside `msg`. -/
def mentions (msg sub : String) : Prop :=
  ∃ a b, msg = a ++ (sub ++ b)

/-! ### The props bag: `extend` from `src/lib` -/

/-- Look a key up in a props bag (`obj[key]`): the first entry with that
key, if any. -/
def getKey : List (String × Val) → String → Option Val
  | [], _ => none
  | p :: rest, k => if p.1 = k then some p.2 else getKey rest k

/-- `obj[key] = v` on a JavaScript object: an existing key keeps its
position and gets the new value; a new key is appended at the end. -/
def setKey : List (String × Val) → String → Val → List (String × Val)
  | [], k, v => [(k, v)]
  | p :: rest, k, v => if p.1 = k then (k, v) :: rest else p :: setKey rest k v

/-- `extend(obj, source)` from `src/lib` (not in src as a definition, its
call sites are): copies every own key of `source` onto `obj` in order,
`obj[key] = source[key]`, mutating `obj` in place. -/
def extend (obj src : List (String × Val)) : List (String × Val) :=
  src.foldl (fun m p => setKey m p.1 p.2) obj

/-! ### `ChildComponent.setWindows` -/

/-- The watcher registrations performed by `watchForClose`: always watch
the parent window; watch the parent component window only when it is
truthy and differs from the parent window. -/
def watchForCloseEvents (env : Env) : List Ev :=
  Ev.watchRegistered WatchTarget.parentWin ::
    (if env.parentComponentWindow.isSome
        ∧ env.parentComponentWindow ≠ env.parentWindow then
      [Ev.watchRegistered WatchTarget.parentCompWin]
    else [])

/-- `ChildComponent.setWindows`: refuse a second attach in an occupied
execution context, mark the context occupied, require both parent
references, compare the decoded window-name tag with the component tag,
then start `watchForClose`.  Returns the thrown error or unit, the
updated environment, and the trace. -/
def ChildComponent.setWindows (c : ChildComponent) (env : Env) :
    Except CErr Unit × Env × List Ev :=
  if env.active then
    (Except.error (CErr.duplicateAttach c.tag), env, [])
  else
    let env2 : Env := { env with active := true }
    if env2.parentWindow.isNone then
      (Except.error (CErr.noParentWindow c.tag), env2, [])
    else if env2.parentComponentWindow.isNone then
      (Except.error (CErr.noParentComponentWindow c.tag), env2, [])
    else
      let evs := [Ev.log "child_win_props"]
      if env2.windowNameTag ≠ c.tag then
        (Except.error (CErr.tagMismatch c.tag env2.windowNameTag), env2, evs)
      else
        (Except.ok (), env2, evs ++ watchForCloseEvents env2)

/-! ### `ChildComponent.init` -/

/-- The four ways the synchronous part of `init` can finish. -/
inductive InitResult where
  | threw (e : CErr)
  | standaloneSuppressed
  | standaloneNoParent
  | initSent
deriving DecidableEq, Repr

/-- `ChildComponent.init`: try `setWindows`; on failure return silently
when `standalone` is set and rethrow otherwise; in standalone mode with no
parent component window return resolved; otherwise listen on the parent
component window (and on the parent window when distinct) and send the
INIT message to the parent component window.  The synchronous body never
writes the instance fields, so the instance is returned unchanged; the
INIT-reply continuation is `handleInitReply` below. -/
def ChildComponent.init (c : ChildComponent) (env : Env) :
    InitResult × ChildComponent × Env × List Ev :=
  let ev0 := [Ev.log "init_child"]
  match c.setWindows env with
  | (Except.error e, env2, evs) =>
    if c.standalone then
      (InitResult.standaloneSuppressed, c, env2,
        ev0 ++ evs ++ [Ev.log "child_standalone"])
    else
      (InitResult.threw e, c, env2, ev0 ++ evs)
  | (Except.ok _, env2, evs) =>
    if c.standalone ∧ env2.parentComponentWindow.isNone then
      (InitResult.standaloneNoParent, c, env2, ev0 ++ evs)
    else
      let listenEvs :=
        Ev.listen env2.parentComponentWindow ::
          (if env2.parentWindow ≠ env2.parentComponentWindow then
            [Ev.listen env2.parentWindow]
          else [])
      (InitResult.initSent, c, env2,
        ev0 ++ evs ++ listenEvs ++
          [Ev.log "send_to_parent_component_init",
           Ev.send env2.parentComponentWindow MsgName.init MsgData.empty])

/-- The payload of the INIT reply: the context type and the handshake
props chosen by the parent. -/
structure InitData where
  context : ContextType
  props : List (String × Val)

/-- The `.then` continuation of the INIT send in `init`: store the delivered
context, extend the props with the delivered props, then invoke `onEnter`
and `onProps`. -/
def ChildComponent.handleInitReply (c : ChildComponent) (d : InitData) :
    ChildComponent × List Ev :=
  let c2 := { c with context := some d.context, props := extend c.props d.props }
  (c2, [Ev.onEnterInvoked, Ev.onPropsInvoked c2.props])

/-! ### Messages, close, watchers, error -/

/-- `ChildComponent.close`: log, invoke `onClose` with the given error,
then send a CLOSE message to the parent window.  The source keeps no
completed-close flag, so the trace is the same on every call. -/
def ChildComponent.close (c : ChildComponent) (env : Env)
    (err : Option String) : List Ev :=
  [Ev.log "close_child",
   Ev.onCloseInvoked err,
   Ev.log "send_to_parent_close",
   Ev.send env.parentWindow MsgName.close MsgData.empty]

/-- The error message of the parent-window close watcher. -/
def parentClosedMessage (tag : String) : String :=
  "[" ++ (tag ++ "] parent window was closed")

/-- The error message of the parent-component-window close watcher. -/
def parentComponentClosedMessage (tag : String) : String :=
  "[" ++ (tag ++ "] parent component window was closed")

/-- The `watchForClose` callback for the parent window: log, invoke
`onClose` with a descriptive error, and call `window.close()` only when
the context type is popup. -/
def ChildComponent.parentWindowClosedHandler (c : ChildComponent) : List Ev :=
  [Ev.log "parent_window_closed",
   Ev.onCloseInvoked (some (parentClosedMessage c.tag))] ++
    (if c.context = some ContextType.popup then [Ev.windowClose] else [])

/-- The `watchForClose` callback for a distinct parent component window:
log, then perform a full `close` with a descriptive error. -/
def ChildComponent.parentComponentWindowClosedHandler (c : ChildComponent)
    (env : Env) : List Ev :=
  Ev.log "parent_component_window_closed" ::
    c.close env (some (parentComponentClosedMessage c.tag))

/-- The PROPS message handler from `listeners()`: extend the props bag
with the incoming props, then invoke `onProps` (which sees the merged
bag). -/
def ChildComponent.handlePropsMessage (c : ChildComponent)
    (incoming : List (String × Val)) : ChildComponent × List Ev :=
  let c2 := { c with props := extend c.props incoming }
  (c2, [Ev.onPropsInvoked c2.props])

/-- The CLOSE message handler from `listeners()`: when the message came
from the parent window invoke `onClose`; otherwise relay a CLOSE message
to the parent window. -/
def ChildComponent.handleCloseMessage (c : ChildComponent) (env : Env)
    (source : Option Win) : List Ev :=
  if source = env.parentWindow then
    [Ev.onCloseInvoked none]
  else
    [Ev.log "send_to_parent_close",
     Ev.send env.parentWindow MsgName.close MsgData.empty]

/-- A thrown JavaScript error as seen by `ChildComponent.error`: whether
it is an `IntegrationError`, its name, message and optional stack. -/
structure JsError where
  isIntegration : Bool
  name : String
  message : String
  stack : Option String
deriving DecidableEq, Repr

/-- `Error.prototype.toString()`. -/
def JsError.toStr (e : JsError) : String :=
  e.name ++ (": " ++ e.message)

/-- The `{ error: err.stack ? message + newline + stack : err.toString() }`
payload formatting of `ChildComponent.error`. -/
def formatErr (e : JsError) : String :=
  match e.stack with
  | some s => e.message ++ ("\n" ++ s)
  | none => e.toStr

/-- The fixed generic message substituted for a non-integration error. -/
def genericErrMessage (tag : String) : String :=
  "[" ++ (tag ++ "] Child lifecycle method threw an error")

/-- The fresh `Error` object created for a non-integration error;
`freshStack` is the runtime-generated stack of its local construction
site, independent of the original error. -/
def genericError (tag : String) (freshStack : Option String) : JsError :=
  { isIntegration := false, name := "Error",
    message := genericErrMessage tag, stack := freshStack }

/-- `ChildComponent.error`: log the full error locally; an
`IntegrationError` is sent to the parent component window verbatim, any
other error is dumped to the local console and replaced by a fresh
generic error before sending. -/
def ChildComponent.error (c : ChildComponent) (env : Env) (err : JsError)
    (freshStack : Option String) : List Ev :=
  let logEv := Ev.log ("error:" ++ (err.stack.getD err.toStr))
  if err.isIntegration then
    [logEv,
     Ev.log "send_to_parent_component_error",
     Ev.send env.parentComponentWindow MsgName.error
       (MsgData.errorData (formatErr err))]
  else
    [logEv,
     Ev.consoleError err.stack,
     Ev.log "send_to_parent_component_error",
     Ev.send env.parentComponentWindow MsgName.error
       (MsgData.errorData (formatErr (genericError c.tag freshStack)))]

/-! ### Trace observations -/

/-- Number of `onClose` invocations in a trace. -/
def countOnClose (evs : List Ev) : Nat :=
  (evs.filter fun e =>
    match e with
    | Ev.onCloseInvoked _ => true
    | _ => false).length

/-- Whether a trace contains any post message. -/
def hasSend (evs : List Ev) : Bool :=
  evs.any fun e =>
    match e with
    | Ev.send _ _ _ => true
    | _ => false

/-- Whether a trace registers any message listener. -/
def hasListen (evs : List Ev) : Bool :=
  evs.any fun e =>
    match e with
    | Ev.listen _ => true
    | _ => false

/-- The payload of the first ERROR message in a trace, if any. -/
def sentErrorPayload : List Ev → Option String
  | [] => none
  | Ev.send _ MsgName.error (MsgData.errorData p) :: _ => some p
  | _ :: rest => sentErrorPayload rest

/-! ### Concrete fixtures -/

/-- An execution context already holding an active instance. -/
def envOccupied : Env :=
  { active := true, parentWindow := some 1, parentComponentWindow := some 2,
    windowNameTag := "foo" }

/-- A fresh execution context whose window name decodes to tag `foo`. -/
def envFresh : Env :=
  { active := false, parentWindow := some 1, parentComponentWindow := some 2,
    windowNameTag := "foo" }

/-- A fresh execution context whose window name decodes to tag `bar`. -/
def envBarName : Env :=
  { active := false, parentWindow := some 1, parentComponentWindow := some 2,
    windowNameTag := "bar" }

/-- A fresh execution context with no discoverable parent windows. -/
def envNoParents : Env :=
  { active := false, parentWindow := none, parentComponentWindow := none,
    windowNameTag := "" }

/-- A non-standalone instance with tag `foo` and defaults `{x:1, y:1}`. -/
def childFoo : ChildComponent := mkChild "foo" false [("x", 1), ("y", 1)]

/-- A standalone instance with tag `foo`. -/
def childFooStandalone : ChildComponent := mkChild "foo" true []

/-- A marked integration error with a stack. -/
def errInt : JsError :=
  { isIntegration := true, name := "IntegrationError", message := "boom",
    stack := some "integration-trace" }

/-- An unknown (non-integration) error carrying internals. -/
def errUnknown : JsError :=
  { isIntegration := false, name := "TypeError", message := "internal secret",
    stack := some "internal-stack" }

/-! ### Props-bag lemmas -/

theorem getKey_setKey_self (m : List (String × Val)) (k : String) (v : Val) :
    getKey (setKey m k v) k = some v := by
  induction m with
  | nil => simp [setKey, getKey]
  | cons p rest ih =>
    by_cases hp : p.1 = k
    · simp [setKey, hp, getKey]
    · simp [setKey, hp, getKey, ih]

theorem getKey_setKey_ne (m : List (String × Val)) (k k' : String) (v : Val)
    (h : k ≠ k') : getKey (setKey m k v) k' = getKey m k' := by
  induction m with
  | nil => simp [setKey, getKey, h]
  | cons p rest ih =>
    by_cases hp : p.1 = k
    · simp [setKey, hp, getKey, h]
    · simp [setKey, hp, getKey, ih]

theorem extend_cons (obj : List (String × Val)) (p : String × Val)
    (src : List (String × Val)) :
    extend obj (p :: src) = extend (setKey obj p.1 p.2) src := rfl

theorem getKey_extend_of_not_mem (obj src : List (String × Val)) (k : String)
    (h : getKey src k = none) : getKey (extend obj src) k = getKey obj k := by
  induction src generalizing obj with
  | nil => rfl
  | cons p rest ih =>
    rw [extend_cons]
    by_cases hp : p.1 = k
    · simp [getKey, hp] at h
    · simp only [getKey, hp, if_false] at h
      rw [ih _ h, getKey_setKey_ne _ _ _ _ hp]

theorem getKey_eq_none_of_not_mem (l : List (String × Val)) (k : String)
    (h : k ∉ l.map Prod.fst) : getKey l k = none := by
  induction l with
  | nil => rfl
  | cons p rest ih =>
    simp only [List.map_cons, List.mem_cons, not_or] at h
    have hpk : ¬ p.1 = k := fun e => h.1 e.symm
    simp [getKey, hpk, ih h.2]

theorem getKey_extend_of_mem (obj src : List (String × Val)) (k : String)
    (v : Val) (hnd : (src.map Prod.fst).Nodup) (h : getKey src k = some v) :
    getKey (extend obj src) k = some v := by
  induction src generalizing obj with
  | nil => simp [getKey] at h
  | cons p rest ih =>
    rw [extend_cons]
    simp only [List.map_cons, List.nodup_cons] at hnd
    by_cases hp : p.1 = k
    · have hknotin : k ∉ rest.map Prod.fst := hp ▸ hnd.1
      have hrest : getKey rest k = none := getKey_eq_none_of_not_mem rest k hknotin
      rw [getKey_extend_of_not_mem _ _ _ hrest, hp, getKey_setKey_self]
      simpa [getKey, hp] using h
    · have h2 : getKey rest k = some v := by simpa [getKey, hp] using h
      exact ih _ hnd.2 h2

theorem filter_setKey (m : List (String × Val)) (k : String) (v : Val)
    (P : String → Bool) (h : P k = false) :
    (setKey m k v).filter (fun p => P p.1) = m.filter (fun p => P p.1) := by
  induction m with
  | nil => simp [setKey, h]
  | cons p rest ih =>
    by_cases hp : p.1 = k
    · simp [setKey, hp, List.filter_cons, h]
    · simp [setKey, hp, List.filter_cons, ih]

theorem filter_extend (obj src : List (String × Val)) (P : String → Bool)
    (h : ∀ p ∈ src, P p.1 = false) :
    (extend obj src).filter (fun p => P p.1) =
      obj.filter (fun p => P p.1) := by
  induction src generalizing obj with
  | nil => rfl
  | cons p rest ih =>
    rw [extend_cons, ih _ (fun q hq => h q (List.mem_cons_of_mem _ hq)),
      filter_setKey _ _ _ _ (h p (List.mem_cons_self _ _))]

theorem getKey_isNone_false_of_mem (l : List (String × Val)) (p : String × Val)
    (h : p ∈ l) : (getKey l p.1).isNone = false := by
  induction l with
  | nil => simp at h
  | cons q rest ih =>
    by_cases hq : q.1 = p.1
    · simp [getKey, hq]
    · rcases List.mem_cons.mp h with h1 | h2
      · rw [h1] at hq; exact absurd rfl hq
      · simp [getKey, hq, ih h2]

/-! ### Trace lemmas -/

theorem countOnClose_append (a b : List Ev) :
    countOnClose (a ++ b) = countOnClose a + countOnClose b := by
  simp [countOnClose, List.filter_append]

theorem countOnClose_close (c : ChildComponent) (env : Env)
    (err : Option String) : countOnClose (c.close env err) = 1 := by
  simp [ChildComponent.close, countOnClose]

/-! ### Error-message lemmas -/

theorem mentions_tagMismatch_configured (t w : String) :
    mentions (CErr.tagMismatch t w).message t :=
  ⟨"[", "] Parent is " ++ (w ++ (" - can not attach " ++ t)), rfl⟩

theorem mentions_tagMismatch_decoded (t w : String) :
    mentions (CErr.tagMismatch t w).message w :=
  ⟨"[" ++ (t ++ "] Parent is "), " - can not attach " ++ t, by
    simp [CErr.message, String.append_assoc]⟩

theorem mentions_parentClosedMessage (t : String) :
    mentions (parentClosedMessage t) t :=
  ⟨"[", "] parent window was closed", rfl⟩

/-! ### The claims -/

/-- C1: in an execution context that already holds an active instance
(`window.__activeXComponent__` set), `setWindows` always throws the
duplicate-attach error — an error of the ConfigurationError kind — for
every tag and every environment, in particular whether or not the first
attach ever completed; the occupancy mark stays in place, nothing is
sent, and a non-standalone `init` rethrows the error.  So at most one
lifecycle record can ever be active per execution context. -/
theorem C1_second_attach_always_fails (c : ChildComponent) (env : Env)
    (h : env.active = true) :
    (c.setWindows env).1 = Except.error (CErr.duplicateAttach c.tag) ∧
    (CErr.duplicateAttach c.tag).isConfigurationError = true ∧
    (c.setWindows env).2.1 = env ∧
    hasSend (c.setWindows env).2.2 = false ∧
    (c.standalone = false →
      (c.init env).1 = InitResult.threw (CErr.duplicateAttach c.tag)) := by
  refine ⟨?_, rfl, ?_, ?_, fun hs => ?_⟩ <;>
    simp [ChildComponent.setWindows, ChildComponent.init, h, hasSend, *]

/-- C1 witness: a second attach with tag `foo` in an occupied context. -/
theorem C1_witness :
    (childFoo.setWindows envOccupied).1 =
      Except.error (CErr.duplicateAttach childFoo.tag) ∧
    (CErr.duplicateAttach childFoo.tag).isConfigurationError = true ∧
    (childFoo.setWindows envOccupied).2.1 = envOccupied ∧
    hasSend (childFoo.setWindows envOccupied).2.2 = false ∧
    (childFoo.standalone = false →
      (childFoo.init envOccupied).1 =
        InitResult.threw (CErr.duplicateAttach childFoo.tag)) :=
  C1_second_attach_always_fails childFoo envOccupied rfl

/-- C10: `setWindows` sets the occupancy mark before validating the
parent references and the decoded tag and never clears it, so after any
failed resolution attempt in a fresh context the mark is set, no message
was sent, and every subsequent attach — by any instance with any tag —
fails with the duplicate-attach error although no instance ever became
active. -/
theorem C10_mark_set_before_validation (c c2 : ChildComponent) (env : Env)
    (h0 : env.active = false)
    (hfail : (c.setWindows env).1 ≠ Except.ok ()) :
    (c.setWindows env).2.1.active = true ∧
    hasSend (c.setWindows env).2.2 = false ∧
    (c2.setWindows (c.setWindows env).2.1).1 =
      Except.error (CErr.duplicateAttach c2.tag) := by
  rcases env with ⟨act, pw, pcw, wnt⟩
  simp only at h0
  subst h0
  cases pw with
  | none => simp [ChildComponent.setWindows, hasSend]
  | some p =>
    cases pcw with
    | none => simp [ChildComponent.setWindows, hasSend]
    | some q =>
      by_cases ht : wnt = c.tag
      · simp [ChildComponent.setWindows, ht] at hfail
      · simp [ChildComponent.setWindows, hasSend, ht]

/-- C10 witness: a failed attach (tag mismatch) followed by a second
attach attempt in the same context. -/
theorem C10_witness :
    (childFoo.setWindows envBarName).2.1.active = true ∧
    hasSend (childFoo.setWindows envBarName).2.2 = false ∧
    (childFoo.setWindows (childFoo.setWindows envBarName).2.1).1 =
      Except.error (CErr.duplicateAttach childFoo.tag) :=
  C10_mark_set_before_validation childFoo childFoo envBarName rfl (by
    rw [show (childFoo.setWindows envBarName).1 =
      Except.error (CErr.tagMismatch "foo" "bar") from rfl]
    simp)

/-- C4: for a non-standalone instance in a fresh context with both parent
references present, a decoded window-name tag different from the
configured tag makes `setWindows` throw the tag-mismatch error, whose
message mentions both the configured and the decoded tag; `init` rethrows
it, and its trace registers no listener and sends no message. -/
theorem C4_tag_mismatch_fails_before_messaging (c : ChildComponent)
    (env : Env) (h0 : env.active = false) (hp : env.parentWindow.isSome)
    (hpc : env.parentComponentWindow.isSome)
    (ht : env.windowNameTag ≠ c.tag) (hs : c.standalone = false) :
    (c.setWindows env).1 =
      Except.error (CErr.tagMismatch c.tag env.windowNameTag) ∧
    mentions (CErr.tagMismatch c.tag env.windowNameTag).message c.tag ∧
    mentions (CErr.tagMismatch c.tag env.windowNameTag).message
      env.windowNameTag ∧
    (c.init env).1 =
      InitResult.threw (CErr.tagMismatch c.tag env.windowNameTag) ∧
    hasListen (c.init env).2.2.2 = false ∧
    hasSend (c.init env).2.2.2 = false := by
  rcases env with ⟨act, pw, pcw, wnt⟩
  simp only at h0 ht
  subst h0
  rcases pw with _ | p
  · simp at hp
  · rcases pcw with _ | q
    · simp at hpc
    · refine ⟨?_, mentions_tagMismatch_configured _ _,
        mentions_tagMismatch_decoded _ _, ?_, ?_, ?_⟩ <;>
        simp [ChildComponent.setWindows, ChildComponent.init, ht, hs,
          hasListen, hasSend]

/-- C4 witness: configured tag `foo`, decoded tag `bar`. -/
theorem C4_witness :
    (childFoo.setWindows envBarName).1 =
      Except.error (CErr.tagMismatch childFoo.tag envBarName.windowNameTag) ∧
    mentions (CErr.tagMismatch childFoo.tag envBarName.windowNameTag).message
      childFoo.tag ∧
    mentions (CErr.tagMismatch childFoo.tag envBarName.windowNameTag).message
      envBarName.windowNameTag ∧
    (childFoo.init envBarName).1 =
      InitResult.threw (CErr.tagMismatch childFoo.tag envBarName.windowNameTag) ∧
    hasListen (childFoo.init envBarName).2.2.2 = false ∧
    hasSend (childFoo.init envBarName).2.2.2 = false :=
  C4_tag_mismatch_fails_before_messaging childFoo envBarName rfl rfl rfl
    (by decide) rfl

/-- C7: a standalone instance in a context with no discoverable parent
component window finishes `init` without throwing (the resolution failure
is suppressed), registers no listener, sends no message, and keeps its
seeded default props. -/
theorem C7_standalone_silent (tag : String) (dp : List (String × Val))
    (env : Env) (hpc : env.parentComponentWindow = none) :
    ((mkChild tag true dp).init env).1 = InitResult.standaloneSuppressed ∧
    hasListen ((mkChild tag true dp).init env).2.2.2 = false ∧
    hasSend ((mkChild tag true dp).init env).2.2.2 = false ∧
    ((mkChild tag true dp).init env).2.1.props = dp := by
  rcases env with ⟨act, pw, pcw, wnt⟩
  simp only at hpc
  subst hpc
  cases act <;> cases pw <;>
    simp [ChildComponent.init, ChildComponent.setWindows, mkChild,
      hasListen, hasSend]

/-- C7 witness: a standalone instance with defaults `{x:1, y:1}` in a
context with no parents. -/
theorem C7_witness :
    ((mkChild "foo" true [("x", 1), ("y", 1)]).init envNoParents).1 =
      InitResult.standaloneSuppressed ∧
    hasListen ((mkChild "foo" true [("x", 1), ("y", 1)]).init
      envNoParents).2.2.2 = false ∧
    hasSend ((mkChild "foo" true [("x", 1), ("y", 1)]).init
      envNoParents).2.2.2 = false ∧
    ((mkChild "foo" true [("x", 1), ("y", 1)]).init envNoParents).2.1.props =
      [("x", 1), ("y", 1)] :=
  C7_standalone_silent "foo" [("x", 1), ("y", 1)] envNoParents rfl

/-- C2 counterexample: a standalone instance whose resolution fails with a
tag mismatch — not the "no parent discoverable" kind — still has the
failure suppressed: `init` returns normally instead of rethrowing, so
suppression is not limited to the no-parent failure kind. -/
theorem C2_counterexample :
    (childFooStandalone.setWindows envBarName).1 =
      Except.error (CErr.tagMismatch "foo" "bar") ∧
    (childFooStandalone.init envBarName).1 =
      InitResult.standaloneSuppressed := by
  constructor <;> rfl

/-- C2 amended: when the standalone flag is set, `init` suppresses every
resolution failure — duplicate attach and tag mismatch included — and
returns normally; when it is not set, every resolution failure is
rethrown as fatal. -/
theorem C2_amended_standalone_suppresses_all (c : ChildComponent)
    (env : Env) (e : CErr) (h : (c.setWindows env).1 = Except.error e) :
    (c.standalone = true →
      (c.init env).1 = InitResult.standaloneSuppressed) ∧
    (c.standalone = false → (c.init env).1 = InitResult.threw e) := by
  unfold ChildComponent.init
  rcases hsw : c.setWindows env with ⟨res, env2, evs⟩
  rw [hsw] at h
  simp only at h
  subst h
  constructor <;> intro hs <;> simp [hs]

/-- C2 amended witness: the tag-mismatch failure of the counterexample is
suppressed for the standalone instance and rethrown otherwise. -/
theorem C2_amended_witness :
    (childFooStandalone.standalone = true →
      (childFooStandalone.init envBarName).1 =
        InitResult.standaloneSuppressed) ∧
    (childFooStandalone.standalone = false →
      (childFooStandalone.init envBarName).1 =
        InitResult.threw (CErr.tagMismatch "foo" "bar")) :=
  C2_amended_standalone_suppresses_all childFooStandalone envBarName
    (CErr.tagMismatch "foo" "bar") rfl

/-- C3 counterexample: the source keeps no completed-close flag, so a
second explicit `close()` is not a no-op — it invokes `onClose` a second
time (two invocations over the two requests). -/
theorem C3_counterexample :
    countOnClose (childFoo.close envFresh none) = 1 ∧
    childFoo.close envFresh none ≠ [] ∧
    countOnClose (childFoo.close envFresh none ++
      childFoo.close envFresh none) = 2 := by
  refine ⟨rfl, ?_, rfl⟩
  simp [ChildComponent.close]

/-- C3 amended: `onClose` fires exactly once per close request, not at
most once per instance: `close` carries no completed-close flag, so a sequence
of n close requests invokes `onClose` n times. -/
theorem C3_amended_onclose_per_request (c : ChildComponent) (env : Env)
    (err : Option String) (n : Nat) :
    countOnClose (c.close env err) = 1 ∧
    countOnClose (List.flatten (List.replicate n (c.close env err))) = n := by
  refine ⟨countOnClose_close c env err, ?_⟩
  induction n with
  | zero => rfl
  | succ m ih =>
    rw [List.replicate_succ, List.flatten_cons, countOnClose_append,
      countOnClose_close, ih, Nat.add_comm]

/-- C5: the PROPS message handler merges the incoming props over the
current bag with last-write-wins per key (for a well-formed incoming
object, i.e. no duplicate keys), keeps every untouched key with its prior
value and prior insertion order, and invokes `onProps` exactly once, with
the already-merged bag. -/
theorem C5_props_message_merge (c : ChildComponent)
    (incoming : List (String × Val)) (k : String) (v : Val)
    (hnd : (incoming.map Prod.fst).Nodup) :
    (c.handlePropsMessage incoming).1.props = extend c.props incoming ∧
    (getKey incoming k = some v →
      getKey (c.handlePropsMessage incoming).1.props k = some v) ∧
    (getKey incoming k = none →
      getKey (c.handlePropsMessage incoming).1.props k = getKey c.props k) ∧
    ((c.handlePropsMessage incoming).1.props.filter
        (fun p => (getKey incoming p.1).isNone) =
      c.props.filter (fun p => (getKey incoming p.1).isNone)) ∧
    (c.handlePropsMessage incoming).2 =
      [Ev.onPropsInvoked (c.handlePropsMessage incoming).1.props] := by
  refine ⟨rfl, ?_, ?_, ?_, rfl⟩
  · exact fun h => getKey_extend_of_mem _ _ _ _ hnd h
  · exact fun h => getKey_extend_of_not_mem _ _ _ h
  · exact filter_extend _ _ (fun key => (getKey incoming key).isNone)
      (fun p hp => getKey_isNone_false_of_mem _ _ hp)

/-- C5 witness: current `{x:1, y:1}`, incoming `{x:2}` yields
`{x:2, y:1}` with one `onProps` invocation after the merge. -/
theorem C5_witness :
    (childFoo.handlePropsMessage [("x", 2)]).1.props = [("x", 2), ("y", 1)] ∧
    getKey (childFoo.handlePropsMessage [("x", 2)]).1.props "x" = some 2 ∧
    getKey (childFoo.handlePropsMessage [("x", 2)]).1.props "y" =
      getKey childFoo.props "y" ∧
    (childFoo.handlePropsMessage [("x", 2)]).2 =
      [Ev.onPropsInvoked [("x", 2), ("y", 1)]] := by
  have h := C5_props_message_merge childFoo [("x", 2)] "x" (2 : Val)
    (by decide)
  have h2 := C5_props_message_merge childFoo [("x", 2)] "y" (0 : Val)
    (by decide)
  have hprops : (childFoo.handlePropsMessage [("x", 2)]).1.props =
      [("x", 2), ("y", 1)] := h.1.trans rfl
  refine ⟨hprops, h.2.1 rfl, h2.2.2.1 rfl, ?_⟩
  rw [h.2.2.2.2, hprops]

/-- C6: `error` sends the own message and trace of an IntegrationError
verbatim across the boundary (`message`, a newline, then the stack when
present); any other error is dumped to the local console and the ERROR
payload sent is the fixed generic payload, a function of the component
tag and the local construction site only — two distinct non-integration
errors produce the identical payload, so nothing of the original
message or stack crosses the boundary. -/
theorem C6_error_reporting (c : ChildComponent) (env : Env)
    (err err2 : JsError) (freshStack : Option String) (s : String) :
    (err.isIntegration = true →
      sentErrorPayload (c.error env err freshStack) =
        some (formatErr err)) ∧
    (err.isIntegration = true → err.stack = some s →
      formatErr err = err.message ++ ("\n" ++ s)) ∧
    (err.isIntegration = false →
      sentErrorPayload (c.error env err freshStack) =
        some (formatErr (genericError c.tag freshStack))) ∧
    (err.isIntegration = false →
      Ev.consoleError err.stack ∈ c.error env err freshStack) ∧
    (err.isIntegration = false → err2.isIntegration = false →
      sentErrorPayload (c.error env err freshStack) =
        sentErrorPayload (c.error env err2 freshStack)) := by
  refine ⟨fun h1 => ?_, fun h1 h2 => ?_, fun h1 => ?_, fun h1 => ?_,
    fun h1 h2 => ?_⟩ <;>
    simp [ChildComponent.error, sentErrorPayload, formatErr, *]

/-- C6 witness: an integration error is forwarded verbatim; an unknown
error carrying internals is replaced by the generic payload and only
dumped to the local console. -/
theorem C6_witness :
    sentErrorPayload (childFoo.error envFresh errInt none) =
      some (formatErr errInt) ∧
    formatErr errInt = errInt.message ++ ("\n" ++ "integration-trace") ∧
    sentErrorPayload (childFoo.error envFresh errUnknown none) =
      some (formatErr (genericError childFoo.tag none)) ∧
    Ev.consoleError errUnknown.stack ∈
      childFoo.error envFresh errUnknown none ∧
    sentErrorPayload (childFoo.error envFresh errUnknown none) =
      sentErrorPayload (childFoo.error envFresh
        { isIntegration := false, name := "RangeError",
          message := "other secret", stack := none } none) := by
  have h := C6_error_reporting childFoo envFresh errInt errInt none
    "integration-trace"
  have h2 := C6_error_reporting childFoo envFresh errUnknown
    { isIntegration := false, name := "RangeError",
      message := "other secret", stack := none } none "integration-trace"
  exact ⟨h.1 rfl, h.2.1 rfl rfl, h2.2.2.1 rfl, h2.2.2.2.1 rfl,
    h2.2.2.2.2 rfl rfl⟩

/-- C8: when the watched parent window is detected closed, the handler
invokes `onClose` exactly once, with an error message that identifies the
parent closure and mentions the component tag; the local window is closed
if and only if the current context type is popup — an iframe-context
instance never calls `window.close()`. -/
theorem C8_parent_window_closed (c : ChildComponent) :
    Ev.onCloseInvoked (some (parentClosedMessage c.tag)) ∈
      c.parentWindowClosedHandler ∧
    countOnClose c.parentWindowClosedHandler = 1 ∧
    mentions (parentClosedMessage c.tag) c.tag ∧
    (Ev.windowClose ∈ c.parentWindowClosedHandler ↔
      c.context = some ContextType.popup) := by
  refine ⟨?_, ?_, mentions_parentClosedMessage _, ?_⟩ <;>
    by_cases hc : c.context = some ContextType.popup <;>
    simp [ChildComponent.parentWindowClosedHandler, countOnClose, hc]

/-- C9: `watchForClose` registers the parent-component-window watcher
exactly when that window exists and differs from the parent window; its
closure handler performs the full close — `onClose` invoked, then a
CLOSE message sent to the parent window — with a trace that does not
depend on the context type, identical for iframe and popup contexts. -/
theorem C9_parent_component_close_cascade (c : ChildComponent)
    (env : Env) :
    ((Ev.watchRegistered WatchTarget.parentCompWin ∈
        watchForCloseEvents env) ↔
      (env.parentComponentWindow.isSome = true ∧
        env.parentComponentWindow ≠ env.parentWindow)) ∧
    c.parentComponentWindowClosedHandler env =
      [Ev.log "parent_component_window_closed",
       Ev.log "close_child",
       Ev.onCloseInvoked (some (parentComponentClosedMessage c.tag)),
       Ev.log "send_to_parent_close",
       Ev.send env.parentWindow MsgName.close MsgData.empty] ∧
    ({ c with context := some ContextType.iframe
        }).parentComponentWindowClosedHandler env =
      ({ c with context := some ContextType.popup
        }).parentComponentWindowClosedHandler env := by
  refine ⟨?_, rfl, rfl⟩
  by_cases h : env.parentComponentWindow.isSome = true ∧
      env.parentComponentWindow ≠ env.parentWindow
  · simp [watchForCloseEvents, h]
  · simp only [watchForCloseEvents, h, if_neg, if_false]
    simp [h]

end Zoid
